import Mathlib

/-!
Verification of the review-queue selection and scheduling engine of the
flashcard/task web application (source: `web/src/lib/db.ts` and the
`/api/review` route handler).

The embedding models a row of the SQLite `cards` table as a `Card`
structure, the card table as a `List Card`, wall-clock readings
(`Date.now()` values, in Unix seconds after the `Math.floor(/1000)`)
as explicit `Int` parameters, and the `Math.random()` draws of the
Fisher-Yates shuffle as a function `rand : Nat → Nat` giving, for each
loop index `i`, the drawn index `j = Math.floor(Math.random() * (i + 1))`
(hence `rand i ≤ i` whenever it matters; the permutation lemmas below do
not even need that bound because an out-of-range swap is modelled as the
identity, exactly as it is unreachable in the source).
-/

namespace TestAnki

/-- A row of the `cards` table as selected and updated by `db.ts`
(interface `Card` plus the `mod` column, which `updateCardSchedule`
writes). All SQLite columns are integers. -/
structure Card where
  id : Int
  nid : Int
  did : Int
  ord : Int
  type : Int
  queue : Int
  due : Int
  ivl : Int
  factor : Int
  reps : Int
  lapses : Int
  mod : Int
  deriving DecidableEq, Repr

/-- Constant `URGENT_DECK_ID` from `db.ts` ("High importance or urgence tasks"). -/
def URGENT_DECK_ID : Int := 1740140533109

/-- Function `getTodayDayNumber` from `db.ts`: days since collection creation.
`crt` is the collection-creation timestamp, `t` the `Date.now()/1000`
reading taken inside this function.  `Math.floor` of the real division
is integer floor-division (`Int.fdiv`). -/
def getTodayDayNumber (crt t : Int) : Int :=
  Int.fdiv (t - crt) 86400

/-- The SQL `WHERE` due-condition shared by `getReviewQueue`,
`getUrgentCount`, `getDecksWithDueCounts` and `getReviewQueueByDeck`:
`queue >= 0 AND ((queue = 2 AND due <= todayDayNum) OR
(queue IN (1,3) AND due <= nowTimestamp) OR (queue = 0))`. -/
def isDue (todayDayNum nowTimestamp : Int) (c : Card) : Bool :=
  decide (0 ≤ c.queue) &&
    ((decide (c.queue = 2) && decide (c.due ≤ todayDayNum)) ||
     ((decide (c.queue = 1) || decide (c.queue = 3)) && decide (c.due ≤ nowTimestamp)) ||
     decide (c.queue = 0))

/-- One iteration body of the Fisher-Yates loop:
`[result[i], result[j]] = [result[j], result[i]]`.  When either index is
out of range (unreachable in the source, where `j ≤ i < length`) the
swap is the identity. -/
def listSwap (l : List α) (i j : Nat) : List α :=
  match l.get? i, l.get? j with
  | some a, some b => (l.set i b).set j a
  | _, _ => l

/-- The Fisher-Yates loop of `shuffleArray`, counting `i` down from
`length - 1` to `1`, drawing `j = rand i` at each step. -/
def fyAux (rand : Nat → Nat) : Nat → List α → List α
  | 0, l => l
  | i + 1, l => fyAux rand i (listSwap l (i + 1) (rand (i + 1)))

/-- Function `shuffleArray` from `db.ts`: copy the array (pure here; the heap
model below makes the copy observable) and run the Fisher-Yates loop
from index `length - 1` down to `1`. -/
def shuffleArray (l : List α) (rand : Nat → Nat) : List α :=
  fyAux rand (l.length - 1) l

/-- Swapping a set element to the head is a permutation:
`t[m] :: t.set m a` is a rearrangement of `a :: t`. -/
theorem headSwap_perm (a : α) : ∀ (t : List α) (m : Nat) (hm : m < t.length),
    List.Perm (t.get ⟨m, hm⟩ :: t.set m a) (a :: t) := by
  intro t
  induction t with
  | nil => intro m hm; exact absurd hm (by simp)
  | cons b s ih =>
    intro m hm
    cases m with
    | zero =>
      exact List.Perm.swap a b s
    | succ k =>
      have hk : k < s.length := by simpa using hm
      have h1 : List.Perm (s.get ⟨k, hk⟩ :: b :: s.set k a) (b :: s.get ⟨k, hk⟩ :: s.set k a) :=
        List.Perm.swap b (s.get ⟨k, hk⟩) (s.set k a)
      have h2 : List.Perm (b :: s.get ⟨k, hk⟩ :: s.set k a) (b :: a :: s) :=
        List.Perm.cons b (ih k hk)
      exact (h1.trans h2).trans (List.Perm.swap a b s)

/-- Writing `l[j]` at position `i` and `l[i]` at position `j` permutes `l`. -/
theorem set_swap_perm : ∀ (l : List α) (i j : Nat) (hi : i < l.length) (hj : j < l.length),
    List.Perm ((l.set i (l.get ⟨j, hj⟩)).set j (l.get ⟨i, hi⟩)) l := by
  intro l
  induction l with
  | nil => intro i j hi _; exact absurd hi (by simp)
  | cons a t ih =>
    intro i j hi hj
    cases i with
    | zero =>
      cases j with
      | zero => simp
      | succ m =>
        have hm : m < t.length := by simpa using hj
        simpa using headSwap_perm a t m hm
    | succ n =>
      have hn : n < t.length := by simpa using hi
      cases j with
      | zero =>
        simpa using headSwap_perm a t n hn
      | succ m =>
        have hm : m < t.length := by simpa using hj
        simpa using List.Perm.cons a (ih n m hn hm)

/-- Each Fisher-Yates swap is a permutation, for any pair of indices. -/
theorem listSwap_perm (l : List α) (i j : Nat) : List.Perm (listSwap l i j) l := by
  unfold listSwap
  cases hi : l.get? i with
  | none => exact List.Perm.refl l
  | some a =>
    cases hj : l.get? j with
    | none => exact List.Perm.refl l
    | some b =>
      have hi' : i < l.length := List.get?_eq_some.mp hi |>.1
      have hj' : j < l.length := List.get?_eq_some.mp hj |>.1
      have ha : l.get ⟨i, hi'⟩ = a := (List.get?_eq_some.mp hi).2
      have hb : l.get ⟨j, hj'⟩ = b := (List.get?_eq_some.mp hj).2
      rw [← ha, ← hb]
      exact set_swap_perm l i j hi' hj'

/-- The whole Fisher-Yates loop is a permutation. -/
theorem fyAux_perm (rand : Nat → Nat) : ∀ (n : Nat) (l : List α),
    List.Perm (fyAux rand n l) l := by
  intro n
  induction n with
  | zero => intro l; exact List.Perm.refl l
  | succ i ih =>
    intro l
    exact (ih (listSwap l (i + 1) (rand (i + 1)))).trans
      (listSwap_perm l (i + 1) (rand (i + 1)))

/-- Theorem: `shuffleArray` returns a permutation of its input. -/
theorem shuffleArray_perm (l : List α) (rand : Nat → Nat) :
    List.Perm (shuffleArray l rand) l :=
  fyAux_perm rand (l.length - 1) l

/-- The `(todayDayNum, nowTimestamp)` pair computed at the top of
`getReviewQueue`: `todayDayNum` comes from the `Date.now()` reading `t1`
made inside `getTodayDayNumber`, while `nowTimestamp` is a separate,
subsequent `Date.now()` reading `t2`. -/
def reviewClockPair (crt t1 t2 : Int) : Int × Int :=
  (getTodayDayNumber crt t1, t2)

/-- Function `getReviewQueue` from `db.ts`.  `cards` is the snapshot of the
joined card table; `t1`, `t2` are the two clock readings of the call
(see `reviewClockPair`); `rand1`, `rand2` are the random draws of the
two `shuffleArray` call sites. -/
def getReviewQueue (cards : List Card) (crt t1 t2 : Int)
    (rand1 rand2 : Nat → Nat) (includeNonUrgent : Bool) : List Card :=
  let p := reviewClockPair crt t1 t2
  let todayDayNum := p.1
  let nowTimestamp := p.2
  let urgentCards := cards.filter fun c =>
    decide (c.did = URGENT_DECK_ID) && isDue todayDayNum nowTimestamp c
  let shuffledUrgent := shuffleArray urgentCards rand1
  if decide (0 < shuffledUrgent.length) && !includeNonUrgent then
    shuffledUrgent
  else
    shuffleArray (cards.filter (isDue todayDayNum nowTimestamp)) rand2

/-- Function `getUrgentCount` from `db.ts`: `COUNT(*)` over the urgent deck with
the shared due-condition; `t1`, `t2` are this call's own two clock
readings. -/
def getUrgentCount (cards : List Card) (crt t1 t2 : Int) : Nat :=
  (cards.filter fun c =>
    decide (c.did = URGENT_DECK_ID) && isDue (getTodayDayNumber crt t1) t2 c).length

/-- Function `getReviewQueueByDeck` from `db.ts`: the due cards of one deck,
shuffled; no blocking gate. -/
def getReviewQueueByDeck (cards : List Card) (crt t1 t2 : Int)
    (rand : Nat → Nat) (deckId : Int) : List Card :=
  shuffleArray
    (cards.filter fun c =>
      decide (c.did = deckId) && isDue (getTodayDayNumber crt t1) t2 c)
    rand

/-- The row transform of the `repeat` branch of `updateCardSchedule`:
`SET due = now, ivl = 0, mod = now, reps = reps + 1, type = 1, queue = 1`. -/
def repeatUpdate (now : Int) (c : Card) : Card :=
  { c with due := now, ivl := 0, mod := now, reps := c.reps + 1, type := 1, queue := 1 }

/-- The row transform of the `soon` branch:
`SET due = todayDayNum + 1, ivl = 1, mod = now, reps = reps + 1, type = 2, queue = 2`. -/
def soonUpdate (now todayDayNum : Int) (c : Card) : Card :=
  { c with due := todayDayNum + 1, ivl := 1, mod := now, reps := c.reps + 1, type := 2, queue := 2 }

/-- The row transform of the `later` branch:
`SET due = todayDayNum + 7, ivl = 7, mod = now, reps = reps + 1, type = 2, queue = 2`. -/
def laterUpdate (now todayDayNum : Int) (c : Card) : Card :=
  { c with due := todayDayNum + 7, ivl := 7, mod := now, reps := c.reps + 1, type := 2, queue := 2 }

/-- The row transform of the `complete` branch:
`SET queue = -1, mod = now, reps = reps + 1` (all other columns kept). -/
def completeUpdate (now : Int) (c : Card) : Card :=
  { c with queue := -1, mod := now, reps := c.reps + 1 }

/-- SQL step `UPDATE cards SET ... WHERE id = ?`: apply `f` to every row whose
`id` matches (a no-op on the table when no row matches). -/
def sqlUpdateWhereId (cards : List Card) (cardId : Int) (f : Card → Card) : List Card :=
  cards.map fun c => if c.id = cardId then f c else c

/-- Function `updateCardSchedule` from `db.ts`.  `now` is the `Date.now()/1000`
reading and `todayDayNum` the result of the `getTodayDayNumber()` call.
The switch has no default branch: an unrecognized action string leaves
the table untouched and the function returns normally. -/
def updateCardSchedule (cards : List Card) (now todayDayNum : Int)
    (cardId : Int) (action : String) : List Card :=
  if action = "repeat" then sqlUpdateWhereId cards cardId (repeatUpdate now)
  else if action = "soon" then sqlUpdateWhereId cards cardId (soonUpdate now todayDayNum)
  else if action = "later" then sqlUpdateWhereId cards cardId (laterUpdate now todayDayNum)
  else if action = "complete" then sqlUpdateWhereId cards cardId (completeUpdate now)
  else cards

/-- The card-list branch of `GET /api/review` (no `deckId`, no
`listDecks` parameter): `includeAll := (all param) === "true"`, then
`getReviewQueue(!includeAll)`.  `allParam` is
`searchParams.get('all')` (`none` when the parameter is absent).
Returns the `cards` field of the JSON response. -/
def GETreviewCards (cards : List Card) (crt t1 t2 : Int)
    (rand1 rand2 : Nat → Nat) (allParam : Option String) : List Card :=
  let includeAll := decide (allParam = some "true")
  getReviewQueue cards crt t1 t2 rand1 rand2 (!includeAll)

/-- The JSON response of `POST /api/review`: either a 400 error body or
the success body `{success, remainingCards, urgentCount, isBlocking}`. -/
inductive PostResponse where
  | badRequest (msg : String)
  | ok (remainingCards : Nat) (urgentCount : Nat) (isBlocking : Bool)
  deriving DecidableEq, Repr

/-- Whether a `POST /api/review` response is a 400 error. -/
def PostResponse.isBadRequest : PostResponse → Bool
  | .badRequest _ => true
  | .ok _ _ _ => false

/-- Whether a `POST /api/review` response is the success body. -/
def PostResponse.isOk : PostResponse → Bool
  | .badRequest _ => false
  | .ok _ _ _ => true

/-- Handler `POST /api/review`: validate `cardId`/`action` (the falsy JS values
are modelled as `cardId = 0` and `action = ""`), reject unknown action
literals with a 400, otherwise run `updateCardSchedule` and requery
`getReviewQueue()` (default argument, i.e. blocking mode) and
`getUrgentCount()`.  `clock k` is the k-th `Date.now()/1000` reading of
the request: `updateCardSchedule` reads `clock 0` and (inside
`getTodayDayNumber`) `clock 1`; the requery reads `clock 2`/`clock 3`;
`getUrgentCount` reads `clock 4`/`clock 5`.  Returns the table after
the call and the response. -/
def POSTreview (cards : List Card) (crt : Int) (clock : Nat → Int)
    (rand1 rand2 : Nat → Nat) (cardId : Int) (action : String) :
    List Card × PostResponse :=
  if cardId = 0 ∨ action = "" then
    (cards, .badRequest "Missing cardId or action")
  else if ¬ (action = "repeat" ∨ action = "soon" ∨ action = "later" ∨ action = "complete") then
    (cards, .badRequest "Invalid action")
  else
    let cards2 := updateCardSchedule cards (clock 0) (getTodayDayNumber crt (clock 1)) cardId action
    let queue := getReviewQueue cards2 crt (clock 2) (clock 3) rand1 rand2 false
    let urgentCount := getUrgentCount cards2 crt (clock 4) (clock 5)
    (cards2, .ok queue.length urgentCount (decide (0 < urgentCount)))

/-- A JS heap of array objects: reference `r` denotes the array object
stored at heap index `r`.  Used to make the `const result = [...array]`
copy in `shuffleArray` observable. -/
abbrev Heap (α : Type) : Type := List (List α)

/-- Dereference an array object (out-of-range references read as empty). -/
def heapGet (h : Heap α) (r : Nat) : List α :=
  h.getD r []

/-- The Fisher-Yates loop run against the heap: each swap writes the
array object at `ref` in place. -/
def fyAuxH (rand : Nat → Nat) (ref : Nat) : Nat → Heap α → Heap α
  | 0, h => h
  | i + 1, h => fyAuxH rand ref i
      (h.set ref (listSwap (heapGet h ref) (i + 1) (rand (i + 1))))

/-- Function `shuffleArray` on the heap: `const result = [...array]` allocates a
fresh array object (at address `h.length`) holding a copy of the
argument's elements; the loop then mutates only that fresh object; the
new reference is returned. -/
def shuffleArrayH (h : Heap α) (r : Nat) (rand : Nat → Nat) : Heap α × Nat :=
  let copy := heapGet h r
  let h1 := h ++ [copy]
  let ref := h.length
  (fyAuxH rand ref (copy.length - 1) h1, ref)

/-- A sample card row: `id`, `did`, `queue` and `due` given, every
other column zero. -/
def mkCard (id did queue due : Int) : Card :=
  ⟨id, 0, did, 0, 0, queue, due, 0, 0, 0, 0, 0⟩

/-- Membership is preserved by the shuffle. -/
theorem mem_shuffleArray {l : List α} {a : α} (rand : Nat → Nat) :
    a ∈ shuffleArray l rand ↔ a ∈ l :=
  (shuffleArray_perm l rand).mem_iff

/-- For the five documented queue statuses, the SQL due-condition is
exactly the spec's eligibility predicate. -/
theorem isDue_iff (d n : Int) (c : Card)
    (hq : c.queue = -1 ∨ c.queue = 0 ∨ c.queue = 1 ∨ c.queue = 2 ∨ c.queue = 3) :
    isDue d n c = true ↔
      (c.queue ≠ -1 ∧
        ((c.queue = 2 ∧ c.due ≤ d) ∨
         ((c.queue = 1 ∨ c.queue = 3) ∧ c.due ≤ n) ∨
         c.queue = 0)) := by
  rcases hq with h | h | h | h | h <;> simp [isDue, h]

/-- With `includeNonUrgent = true` the gate never fires: the call is
the shuffled cross-category due set. -/
theorem getReviewQueue_true_eq (cards : List Card) (crt t1 t2 : Int)
    (rand1 rand2 : Nat → Nat) :
    getReviewQueue cards crt t1 t2 rand1 rand2 true =
      shuffleArray (cards.filter (isDue (getTodayDayNumber crt t1) t2)) rand2 := by
  simp [getReviewQueue, reviewClockPair]

/-- With `includeNonUrgent = false` and a non-empty urgent due set, the
call returns the shuffled urgent set. -/
theorem getReviewQueue_blocking_eq (cards : List Card) (crt t1 t2 : Int)
    (rand1 rand2 : Nat → Nat)
    (hne : cards.filter (fun c =>
      decide (c.did = URGENT_DECK_ID) && isDue (getTodayDayNumber crt t1) t2 c) ≠ []) :
    getReviewQueue cards crt t1 t2 rand1 rand2 false =
      shuffleArray (cards.filter fun c =>
        decide (c.did = URGENT_DECK_ID) && isDue (getTodayDayNumber crt t1) t2 c) rand1 := by
  have hlen : 0 < (shuffleArray (cards.filter fun c =>
      decide (c.did = URGENT_DECK_ID) && isDue (getTodayDayNumber crt t1) t2 c) rand1).length := by
    rw [(shuffleArray_perm _ rand1).length_eq]
    exact List.length_pos.mpr hne
  simp [getReviewQueue, reviewClockPair, hlen]

/-- With `includeNonUrgent = false` and an empty urgent due set, the
call returns the shuffled cross-category due set. -/
theorem getReviewQueue_released_eq (cards : List Card) (crt t1 t2 : Int)
    (rand1 rand2 : Nat → Nat)
    (hemp : cards.filter (fun c =>
      decide (c.did = URGENT_DECK_ID) && isDue (getTodayDayNumber crt t1) t2 c) = []) :
    getReviewQueue cards crt t1 t2 rand1 rand2 false =
      shuffleArray (cards.filter (isDue (getTodayDayNumber crt t1) t2)) rand2 := by
  simp [getReviewQueue, reviewClockPair, hemp, shuffleArray, fyAux]

/-- Lemma: `UPDATE ... WHERE id = ?` leaves the table unchanged when no row
matches. -/
theorem sqlUpdateWhereId_no_match (cards : List Card) (cardId : Int) (f : Card → Card)
    (hnone : ∀ c ∈ cards, c.id ≠ cardId) :
    sqlUpdateWhereId cards cardId f = cards := by
  unfold sqlUpdateWhereId
  have hcong : ∀ c ∈ cards, (if c.id = cardId then f c else c) = c :=
    fun c hc => if_neg (hnone c hc)
  rw [List.map_congr_left hcong]
  simp

/-- Writing another heap cell does not change the one read. -/
theorem heapGet_set_ne (h : Heap α) (ref r : Nat) (x : List α) (hne : r ≠ ref) :
    heapGet (h.set ref x) r = heapGet h r := by
  unfold heapGet
  rw [List.getD_eq_getElem?_getD, List.getD_eq_getElem?_getD,
    List.getElem?_set_ne (fun h => hne h.symm)]

/-- Allocating at the end of the heap does not change existing cells. -/
theorem heapGet_append_lt (h : Heap α) (x : List α) (r : Nat) (hr : r < h.length) :
    heapGet (h ++ [x]) r = heapGet h r := by
  unfold heapGet
  rw [List.getD_eq_getElem?_getD, List.getD_eq_getElem?_getD,
    List.getElem?_append_left hr]

/-- The in-place Fisher-Yates loop writes only the cell at `ref`. -/
theorem fyAuxH_get_ne (rand : Nat → Nat) (ref : Nat) :
    ∀ (n : Nat) (h : Heap α) (r : Nat), r ≠ ref →
      heapGet (fyAuxH rand ref n h) r = heapGet h r := by
  intro n
  induction n with
  | zero => intro h r _; rfl
  | succ i ih =>
    intro h r hne
    rw [fyAuxH, ih _ _ hne, heapGet_set_ne _ _ _ _ hne]

/-- C3: for every item and every fixed `now` and `dayNumber`,
`updateCardSchedule` realizes exactly the transition table of the spec:
`repeat` sets queue status learning(1), due `now`, interval 0; `soon`
sets review(2), due `dayNumber + 1`, interval 1; `later` sets
review(2), due `dayNumber + 7`, interval 7; `complete` sets
suspended(-1) leaving state, due and interval unchanged; every action
increments the repetition count by exactly 1. -/
theorem action_transition_table (c : Card) (now todayDayNum : Int) :
    (((updateCardSchedule [c] now todayDayNum c.id "repeat").headD c).queue = 1 ∧
     ((updateCardSchedule [c] now todayDayNum c.id "repeat").headD c).due = now ∧
     ((updateCardSchedule [c] now todayDayNum c.id "repeat").headD c).ivl = 0 ∧
     ((updateCardSchedule [c] now todayDayNum c.id "repeat").headD c).reps = c.reps + 1) ∧
    (((updateCardSchedule [c] now todayDayNum c.id "soon").headD c).queue = 2 ∧
     ((updateCardSchedule [c] now todayDayNum c.id "soon").headD c).due = todayDayNum + 1 ∧
     ((updateCardSchedule [c] now todayDayNum c.id "soon").headD c).ivl = 1 ∧
     ((updateCardSchedule [c] now todayDayNum c.id "soon").headD c).reps = c.reps + 1) ∧
    (((updateCardSchedule [c] now todayDayNum c.id "later").headD c).queue = 2 ∧
     ((updateCardSchedule [c] now todayDayNum c.id "later").headD c).due = todayDayNum + 7 ∧
     ((updateCardSchedule [c] now todayDayNum c.id "later").headD c).ivl = 7 ∧
     ((updateCardSchedule [c] now todayDayNum c.id "later").headD c).reps = c.reps + 1) ∧
    (((updateCardSchedule [c] now todayDayNum c.id "complete").headD c).queue = -1 ∧
     ((updateCardSchedule [c] now todayDayNum c.id "complete").headD c).type = c.type ∧
     ((updateCardSchedule [c] now todayDayNum c.id "complete").headD c).due = c.due ∧
     ((updateCardSchedule [c] now todayDayNum c.id "complete").headD c).ivl = c.ivl ∧
     ((updateCardSchedule [c] now todayDayNum c.id "complete").headD c).reps = c.reps + 1) := by
  simp [updateCardSchedule, sqlUpdateWhereId, repeatUpdate, soonUpdate, laterUpdate,
    completeUpdate]

/-- C8: `shuffleArray` returns a permutation of its input — the output
multiset equals the input multiset — so the queue functions never
duplicate and never drop an eligible item (shown here for the by-deck
queue: its result is a permutation of the filtered due set). -/
theorem shuffle_multiset_eq {α : Type} (l : List α) (rand : Nat → Nat)
    (cards : List Card) (crt t1 t2 : Int) (rd : Nat → Nat) (deckId : Int) :
    Multiset.ofList (shuffleArray l rand) = Multiset.ofList l ∧
    List.Perm (getReviewQueueByDeck cards crt t1 t2 rd deckId)
      (cards.filter fun c =>
        decide (c.did = deckId) && isDue (getTodayDayNumber crt t1) t2 c) :=
  ⟨Multiset.coe_eq_coe.mpr (shuffleArray_perm l rand), shuffleArray_perm _ _⟩

/-- C9: a non-suspended item acted on with `repeat` at time `T` (the
row transform applied by `updateCardSchedule`) satisfies the shared due
condition of every queue computation whose `nowTimestamp` reading is
any `T' ≥ T`, for any day number. -/
theorem repeat_reenters (c : Card) (T Tp qday day : Int)
    (_hns : c.queue ≠ -1) (hT : T ≤ Tp) :
    updateCardSchedule [c] T day c.id "repeat" = [repeatUpdate T c] ∧
    isDue qday Tp (repeatUpdate T c) = true := by
  constructor
  · simp [updateCardSchedule, sqlUpdateWhereId]
  · simp [isDue, repeatUpdate, hT]

/-- C9 witness: the repeat transition at `T = 10` is due again at
`T' = 12`. -/
theorem repeat_reenters_witness :
    updateCardSchedule [mkCard 1 7 2 5] 10 3 1 "repeat" = [repeatUpdate 10 (mkCard 1 7 2 5)] ∧
    isDue 0 12 (repeatUpdate 10 (mkCard 1 7 2 5)) = true :=
  repeat_reenters (mkCard 1 7 2 5) 10 12 0 3 (by decide) (by decide)

/-- C10: `shuffleArray` never mutates its argument: on the heap model,
after the call the array object the caller passed holds the same
elements in the same order as before (the function copies into a fresh
object and permutes only the copy). -/
theorem shuffle_no_mutation (h : Heap α) (r : Nat) (rand : Nat → Nat)
    (hr : r < h.length) :
    heapGet (shuffleArrayH h r rand).1 r = heapGet h r := by
  unfold shuffleArrayH
  have hne : r ≠ h.length := Nat.ne_of_lt hr
  rw [fyAuxH_get_ne rand h.length _ _ r hne, heapGet_append_lt h _ r hr]

/-- C10 witness: the caller's array `[1, 2, 3]` is unchanged by the
call. -/
theorem shuffle_no_mutation_witness :
    heapGet (shuffleArrayH [[(1 : Nat), 2, 3]] 0 (fun _ => 0)).1 0 =
      heapGet [[(1 : Nat), 2, 3]] 0 :=
  shuffle_no_mutation [[(1 : Nat), 2, 3]] 0 (fun _ => 0) (by decide)

/-- C1: for a card whose queue status lies in the documented set
{suspended(-1), new(0), learning(1), review(2), relearning(3)},
membership in the eligible set computed by the queue functions (the
cross-category query and the by-deck query) holds iff the card is not
suspended and the status-specific due condition holds: review cards
compare `due` to the day number, learning/relearning cards compare
`due` to the Unix-seconds timestamp, new cards are always eligible.
In particular a review card with `due = dayNumber` passes the due
condition and one with `due = dayNumber + 1` does not. -/
theorem eligibility_characterization (cards : List Card) (crt t1 t2 : Int)
    (rand1 rand2 rd : Nat → Nat) (c : Card) (deckId : Int)
    (hq : c.queue = -1 ∨ c.queue = 0 ∨ c.queue = 1 ∨ c.queue = 2 ∨ c.queue = 3) :
    (c ∈ getReviewQueue cards crt t1 t2 rand1 rand2 true ↔
      c ∈ cards ∧ (c.queue ≠ -1 ∧
        ((c.queue = 2 ∧ c.due ≤ getTodayDayNumber crt t1) ∨
         ((c.queue = 1 ∨ c.queue = 3) ∧ c.due ≤ t2) ∨
         c.queue = 0))) ∧
    (c ∈ getReviewQueueByDeck cards crt t1 t2 rd deckId ↔
      c ∈ cards ∧ c.did = deckId ∧ (c.queue ≠ -1 ∧
        ((c.queue = 2 ∧ c.due ≤ getTodayDayNumber crt t1) ∨
         ((c.queue = 1 ∨ c.queue = 3) ∧ c.due ≤ t2) ∨
         c.queue = 0))) ∧
    (c.queue = 2 ∧ c.due = getTodayDayNumber crt t1 →
      isDue (getTodayDayNumber crt t1) t2 c = true) ∧
    (c.queue = 2 ∧ c.due = getTodayDayNumber crt t1 + 1 →
      isDue (getTodayDayNumber crt t1) t2 c = false) := by
  refine ⟨?_, ?_, ?_, ?_⟩
  · rw [getReviewQueue_true_eq, mem_shuffleArray, List.mem_filter,
      isDue_iff _ _ _ hq]
  · unfold getReviewQueueByDeck
    rw [mem_shuffleArray, List.mem_filter]
    simp only [Bool.and_eq_true, decide_eq_true_eq, isDue_iff _ _ _ hq, and_assoc]
  · rintro ⟨h2, hdue⟩
    simp [isDue, h2, hdue]
  · rintro ⟨h2, hdue⟩
    simp [isDue, h2, hdue]

/-- C1 witness: a review card due exactly today is in the queue. -/
theorem eligibility_characterization_witness :
    mkCard 1 7 2 0 ∈ getReviewQueue [mkCard 1 7 2 0] 0 0 0 (fun _ => 0) (fun _ => 0) true :=
  ((eligibility_characterization [mkCard 1 7 2 0] 0 0 0 (fun _ => 0) (fun _ => 0)
      (fun _ => 0) (mkCard 1 7 2 0) 7 (by decide)).1).mpr (by decide)

/-- C2: with the blocking gate enabled (`includeNonUrgent = false`), a
non-empty urgent due set is returned exactly — the result is a
permutation of the urgent due set and every returned card is from the
urgent deck; once the urgent due set is empty, the result is a
permutation of the full cross-category due set. -/
theorem blocking_gate (cards : List Card) (crt t1 t2 : Int)
    (rand1 rand2 : Nat → Nat) :
    (cards.filter (fun c =>
        decide (c.did = URGENT_DECK_ID) && isDue (getTodayDayNumber crt t1) t2 c) ≠ [] →
      List.Perm (getReviewQueue cards crt t1 t2 rand1 rand2 false)
        (cards.filter fun c =>
          decide (c.did = URGENT_DECK_ID) && isDue (getTodayDayNumber crt t1) t2 c) ∧
      ∀ x ∈ getReviewQueue cards crt t1 t2 rand1 rand2 false, x.did = URGENT_DECK_ID) ∧
    (cards.filter (fun c =>
        decide (c.did = URGENT_DECK_ID) && isDue (getTodayDayNumber crt t1) t2 c) = [] →
      List.Perm (getReviewQueue cards crt t1 t2 rand1 rand2 false)
        (cards.filter (isDue (getTodayDayNumber crt t1) t2))) := by
  constructor
  · intro hne
    rw [getReviewQueue_blocking_eq cards crt t1 t2 rand1 rand2 hne]
    refine ⟨shuffleArray_perm _ _, ?_⟩
    intro x hx
    have hxf := (mem_shuffleArray rand1).mp hx
    have := (List.mem_filter.mp hxf).2
    simp only [Bool.and_eq_true, decide_eq_true_eq] at this
    exact this.1
  · intro hemp
    rw [getReviewQueue_released_eq cards crt t1 t2 rand1 rand2 hemp]
    exact shuffleArray_perm _ _

/-- C2 witness: with an urgent new card and an other-deck new card both
due, blocking mode returns only the urgent one; with only the
other-deck card, blocking mode returns it. -/
theorem blocking_gate_witness :
    (List.Perm
      (getReviewQueue [mkCard 1 URGENT_DECK_ID 0 0, mkCard 2 7 0 0] 0 0 0
        (fun _ => 0) (fun _ => 0) false)
      (List.filter (fun c =>
          decide (c.did = URGENT_DECK_ID) && isDue (getTodayDayNumber 0 0) 0 c)
        [mkCard 1 URGENT_DECK_ID 0 0, mkCard 2 7 0 0]) ∧
     ∀ x ∈ getReviewQueue [mkCard 1 URGENT_DECK_ID 0 0, mkCard 2 7 0 0] 0 0 0
        (fun _ => 0) (fun _ => 0) false, x.did = URGENT_DECK_ID) ∧
    List.Perm
      (getReviewQueue [mkCard 2 7 0 0] 0 0 0 (fun _ => 0) (fun _ => 0) false)
      (List.filter (isDue (getTodayDayNumber 0 0) 0) [mkCard 2 7 0 0]) :=
  ⟨(blocking_gate [mkCard 1 URGENT_DECK_ID 0 0, mkCard 2 7 0 0] 0 0 0
      (fun _ => 0) (fun _ => 0)).1 (by decide),
   (blocking_gate [mkCard 2 7 0 0] 0 0 0 (fun _ => 0) (fun _ => 0)).2 (by decide)⟩

/-- C4: the card-list branch of `GET /api/review` passes the negation
of the `all` flag into `getReviewQueue`: when `all` is absent or not
`"true"`, the result is a permutation of the full cross-category due
set even when the urgent due set is non-empty (blocking bypassed);
when `all=true`, the blocking gate applies and a non-empty urgent due
set is returned alone. -/
theorem review_get_all_flag (cards : List Card) (crt t1 t2 : Int)
    (rand1 rand2 : Nat → Nat) (allParam : Option String) :
    GETreviewCards cards crt t1 t2 rand1 rand2 allParam =
      getReviewQueue cards crt t1 t2 rand1 rand2 (!decide (allParam = some "true")) ∧
    (allParam ≠ some "true" →
      List.Perm (GETreviewCards cards crt t1 t2 rand1 rand2 allParam)
        (cards.filter (isDue (getTodayDayNumber crt t1) t2))) ∧
    (allParam = some "true" →
      cards.filter (fun c =>
        decide (c.did = URGENT_DECK_ID) && isDue (getTodayDayNumber crt t1) t2 c) ≠ [] →
      List.Perm (GETreviewCards cards crt t1 t2 rand1 rand2 allParam)
        (cards.filter fun c =>
          decide (c.did = URGENT_DECK_ID) && isDue (getTodayDayNumber crt t1) t2 c) ∧
      ∀ x ∈ GETreviewCards cards crt t1 t2 rand1 rand2 allParam,
        x.did = URGENT_DECK_ID) := by
  refine ⟨rfl, ?_, ?_⟩
  · intro hne
    have hdec : decide (allParam = some "true") = false := by
      simpa using hne
    unfold GETreviewCards
    rw [hdec]
    show List.Perm (getReviewQueue cards crt t1 t2 rand1 rand2 true)
      (cards.filter (isDue (getTodayDayNumber crt t1) t2))
    rw [getReviewQueue_true_eq]
    exact shuffleArray_perm _ _
  · intro heq hne
    have hdec : decide (allParam = some "true") = true := by
      simpa using heq
    unfold GETreviewCards
    rw [hdec]
    show List.Perm (getReviewQueue cards crt t1 t2 rand1 rand2 false)
        (cards.filter fun c =>
          decide (c.did = URGENT_DECK_ID) && isDue (getTodayDayNumber crt t1) t2 c) ∧
      ∀ x ∈ getReviewQueue cards crt t1 t2 rand1 rand2 false, x.did = URGENT_DECK_ID
    rw [getReviewQueue_blocking_eq cards crt t1 t2 rand1 rand2 hne]
    refine ⟨shuffleArray_perm _ _, ?_⟩
    intro x hx
    have hxf := (mem_shuffleArray rand1).mp hx
    have := (List.mem_filter.mp hxf).2
    simp only [Bool.and_eq_true, decide_eq_true_eq] at this
    exact this.1

/-- C4 witness: with the `all` parameter absent, the default request
returns both cards (bypassing the non-empty urgent set); with
`all=true`, only the urgent card is returned. -/
theorem review_get_all_flag_witness :
    List.Perm
      (GETreviewCards [mkCard 1 URGENT_DECK_ID 0 0, mkCard 2 7 0 0] 0 0 0
        (fun _ => 0) (fun _ => 0) none)
      (List.filter (isDue (getTodayDayNumber 0 0) 0)
        [mkCard 1 URGENT_DECK_ID 0 0, mkCard 2 7 0 0]) ∧
    List.Perm
      (GETreviewCards [mkCard 1 URGENT_DECK_ID 0 0, mkCard 2 7 0 0] 0 0 0
        (fun _ => 0) (fun _ => 0) (some "true"))
      (List.filter (fun c =>
          decide (c.did = URGENT_DECK_ID) && isDue (getTodayDayNumber 0 0) 0 c)
        [mkCard 1 URGENT_DECK_ID 0 0, mkCard 2 7 0 0]) :=
  ⟨(review_get_all_flag [mkCard 1 URGENT_DECK_ID 0 0, mkCard 2 7 0 0] 0 0 0
      (fun _ => 0) (fun _ => 0) none).2.1 (by decide),
   ((review_get_all_flag [mkCard 1 URGENT_DECK_ID 0 0, mkCard 2 7 0 0] 0 0 0
      (fun _ => 0) (fun _ => 0) (some "true")).2.2 rfl (by decide)).1⟩

/-- C5 counterexample: called directly with an action outside the four
literals, `updateCardSchedule` returns normally with the table
unchanged — the switch has no default, so the function silently does
nothing instead of signaling an invalid-argument failure. -/
theorem invalid_action_counterexample :
    updateCardSchedule [mkCard 1 7 0 0] 100 5 1 "skip" = [mkCard 1 7 0 0] := by
  decide

/-- C5 (amended): for an action outside the four literals no mutation
is performed anywhere — `updateCardSchedule` itself is a silent no-op,
and the HTTP POST handler rejects the request with a 400 response
before calling it, leaving the table unchanged. -/
theorem invalid_action_rejected (cards : List Card) (crt : Int) (clock : Nat → Int)
    (rand1 rand2 : Nat → Nat) (cardId : Int) (action : String) (now todayDayNum : Int)
    (h : ¬ (action = "repeat" ∨ action = "soon" ∨ action = "later" ∨ action = "complete")) :
    updateCardSchedule cards now todayDayNum cardId action = cards ∧
    (POSTreview cards crt clock rand1 rand2 cardId action).1 = cards ∧
    (POSTreview cards crt clock rand1 rand2 cardId action).2.isBadRequest = true := by
  push_neg at h
  obtain ⟨h1, h2, h3, h4⟩ := h
  have hpost : POSTreview cards crt clock rand1 rand2 cardId action =
      if cardId = 0 ∨ action = "" then
        (cards, PostResponse.badRequest "Missing cardId or action")
      else (cards, PostResponse.badRequest "Invalid action") := by
    unfold POSTreview
    by_cases hm : cardId = 0 ∨ action = ""
    · simp [hm]
    · simp [hm, h1, h2, h3, h4]
  refine ⟨by simp [updateCardSchedule, h1, h2, h3, h4], ?_, ?_⟩
  · rw [hpost]
    split <;> rfl
  · rw [hpost]
    split <;> rfl

/-- C5 witness: the action literal `"skip"` is rejected with a 400 and
mutates nothing. -/
theorem invalid_action_rejected_witness :
    updateCardSchedule [] 3 4 1 "skip" = [] ∧
    (POSTreview [] 0 (fun _ => 0) (fun _ => 0) (fun _ => 0) 1 "skip").1 = [] ∧
    (POSTreview [] 0 (fun _ => 0) (fun _ => 0) (fun _ => 0) 1 "skip").2.isBadRequest = true :=
  invalid_action_rejected [] 0 (fun _ => 0) (fun _ => 0) (fun _ => 0) 1 "skip" 3 4 (by decide)

/-- C6 counterexample: a valid action on a card id that matches no row
is NOT signaled as a not-found condition: the POST handler answers with
the success body (while the table is indeed unchanged). -/
theorem unknown_card_counterexample :
    (POSTreview [mkCard 1 7 0 0] 0 (fun _ => 0) (fun _ => 0) (fun _ => 0) 2 "soon").1 =
      [mkCard 1 7 0 0] ∧
    (POSTreview [mkCard 1 7 0 0] 0 (fun _ => 0) (fun _ => 0) (fun _ => 0) 2 "soon").2.isOk =
      true := by
  decide

/-- C6 (amended): for a card id that matches no stored row, a valid
action changes no row (the SQL `UPDATE` matches nothing) and the
operation silently succeeds — the POST handler responds with the
success body, not a not-found condition. -/
theorem unknown_card_silent (cards : List Card) (crt : Int) (clock : Nat → Int)
    (rand1 rand2 : Nat → Nat) (cardId : Int) (action : String)
    (hact : action = "repeat" ∨ action = "soon" ∨ action = "later" ∨ action = "complete")
    (hid : cardId ≠ 0)
    (hnone : ∀ c ∈ cards, c.id ≠ cardId) :
    (POSTreview cards crt clock rand1 rand2 cardId action).1 = cards ∧
    (POSTreview cards crt clock rand1 rand2 cardId action).2.isOk = true := by
  have hupd : updateCardSchedule cards (clock 0) (getTodayDayNumber crt (clock 1))
      cardId action = cards := by
    rcases hact with h | h | h | h <;> subst h <;>
      (simp only [updateCardSchedule]; simp only [reduceIte]) <;>
      exact sqlUpdateWhereId_no_match cards cardId _ hnone
  have hne : action ≠ "" := by
    rcases hact with h | h | h | h <;> simp [h]
  have hm : ¬ (cardId = 0 ∨ action = "") := by
    rintro (h0 | hemp)
    · exact hid h0
    · exact hne hemp
  unfold POSTreview
  rw [if_neg hm, if_neg (not_not_intro hact)]
  exact ⟨hupd, rfl⟩

/-- C6 witness: action `later` on absent card id 5 leaves the table
unchanged and succeeds. -/
theorem unknown_card_silent_witness :
    (POSTreview [mkCard 1 7 0 0] 0 (fun _ => 0) (fun _ => 0) (fun _ => 0) 5 "later").1 =
      [mkCard 1 7 0 0] ∧
    (POSTreview [mkCard 1 7 0 0] 0 (fun _ => 0) (fun _ => 0) (fun _ => 0) 5 "later").2.isOk =
      true :=
  unknown_card_silent [mkCard 1 7 0 0] 0 (fun _ => 0) (fun _ => 0) (fun _ => 0) 5 "later"
    (by decide) (by decide) (by decide)

/-- C7 counterexample: the two values used by one `getReviewQueue` call
come from two separate `Date.now()` readings; when the clock crosses a
day boundary between them (`t1 = 86399`, `t2 = 86400`, `crt = 0`), the
day number used is NOT `floor((now - creationTime) / 86400)` for the
`now` used on learning cards. -/
theorem clock_snapshot_counterexample :
    ¬ ((reviewClockPair 0 86399 86400).1 =
       Int.fdiv ((reviewClockPair 0 86399 86400).2 - 0) 86400) := by
  decide

/-- C7 (amended): within one `getReviewQueue` call the pair
`(todayDayNum, nowTimestamp)` is computed once and reused for every
item, but it derives from two separate clock readings `t1` and `t2`;
whenever the clock does not advance between them (`t1 = t2`), the day
number equals `floor((now - creationTime) / 86400)` for the shared
reading, and the call is literally the call with one shared reading. -/
theorem clock_snapshot_single_reading (cards : List Card) (crt t1 t2 : Int)
    (rand1 rand2 : Nat → Nat) (b : Bool) (h : t1 = t2) :
    (reviewClockPair crt t1 t2).1 =
      Int.fdiv ((reviewClockPair crt t1 t2).2 - crt) 86400 ∧
    getReviewQueue cards crt t1 t2 rand1 rand2 b =
      getReviewQueue cards crt t2 t2 rand1 rand2 b := by
  subst h
  exact ⟨rfl, rfl⟩

/-- C7 witness: with both readings equal to 90000 and `crt = 3`, the
day-number equation of the amended claim holds. -/
theorem clock_snapshot_single_reading_witness :
    (reviewClockPair 3 90000 90000).1 =
      Int.fdiv ((reviewClockPair 3 90000 90000).2 - 3) 86400 ∧
    getReviewQueue [] 3 90000 90000 (fun _ => 0) (fun _ => 0) true =
      getReviewQueue [] 3 90000 90000 (fun _ => 0) (fun _ => 0) true :=
  clock_snapshot_single_reading [] 3 90000 90000 (fun _ => 0) (fun _ => 0) true rfl

end TestAnki
